import Mathlib

/-
Verification development for drivers/gpu/drm/panel/panel-raydium-rm69080.c.

The driver is embedded shallowly:
* `cmd_dsi`, `rm69080_400x400_mod` mirror the vendor command table.
* Bus interactions are modelled by an environment (`Bus`) that fixes the
  integer result of each hardware call; a negative result of
  `mipi_dsi_generic_write` is a failure, a nonzero result of a DCS helper
  is a failure, exactly as the C code tests them.
* Every operation returns its C return value, the new `rm69080` state, and
  a trace of the bus writes, sleeps and DCS commands it performed, in order.
-/

/-- One entry of the DSI command list: a command byte and a parameter byte
(struct cmd_dsi). -/
structure cmd_dsi where
  cmd : Nat
  param : Nat
  deriving DecidableEq, Repr

/-- The sentinel command value that marks a delay entry (#define SLEEP_CMD 0). -/
def SLEEP_CMD : Nat := 0

/-- The fixed vendor initialization table rm69080_400x400_mod, all 14 entries
in source order (0x96 = 150 ms delays). -/
def rm69080_400x400_mod : List cmd_dsi :=
  [⟨0xFE, 0x05⟩, ⟨0x05, 0x00⟩, ⟨0xFE, 0x07⟩, ⟨0x07, 0x4F⟩,
   ⟨0xFE, 0x0A⟩, ⟨0x1C, 0x1B⟩, ⟨0xFE, 0x00⟩, ⟨0x35, 0x00⟩,
   ⟨0x51, 0xF0⟩, ⟨0x38, 0x00⟩, ⟨0x11, 0x00⟩,
   ⟨SLEEP_CMD, 0x96⟩, ⟨SLEEP_CMD, 0x96⟩, ⟨0x29, 0x00⟩]

/-- Observable bus-level actions of the driver, in order, with the result each
call returned: a two-byte generic write [cmd, param], a blocking sleep in
milliseconds, and the four DCS helper commands. -/
inductive Event where
  | write (reg param : Nat) (ret : Int)
  | sleep (ms : Nat)
  | exit_sleep_mode (ret : Int)
  | set_display_on (ret : Int)
  | set_display_off (ret : Int)
  | enter_sleep_mode (ret : Int)
  deriving DecidableEq, Repr

/-- The kind of an event with the bus result erased, used to state which
actions were performed independently of the environment results. -/
inductive EvShape where
  | write (reg param : Nat)
  | sleep (ms : Nat)
  | exit_sleep_mode
  | set_display_on
  | set_display_off
  | enter_sleep_mode
  deriving DecidableEq, Repr

/-- Erase the bus result from an event. -/
def Event.shape : Event → EvShape
  | .write r p _ => .write r p
  | .sleep m => .sleep m
  | .exit_sleep_mode _ => .exit_sleep_mode
  | .set_display_on _ => .set_display_on
  | .set_display_off _ => .set_display_off
  | .enter_sleep_mode _ => .enter_sleep_mode

/-- The loop body of set_cmd_rm69080, from entry index i with accumulator ret
(the value of the local variable ret entering iteration i): for a non-sentinel
entry issue the write, abort with the result if it is negative; for a sentinel
entry sleep param milliseconds. The environment bus gives the result of the
write performed at each entry index. Returns the C return value and the trace. -/
def set_cmd_from (bus : Nat → Int) : Nat → Int → List cmd_dsi → Int × List Event
  | _, ret, [] => (ret, [])
  | i, ret, e :: rest =>
    if e.cmd ≠ SLEEP_CMD then
      if bus i < 0 then
        (bus i, [Event.write e.cmd e.param (bus i)])
      else
        ((set_cmd_from bus (i + 1) (bus i) rest).1,
         Event.write e.cmd e.param (bus i) :: (set_cmd_from bus (i + 1) (bus i) rest).2)
    else
      ((set_cmd_from bus (i + 1) ret rest).1,
       Event.sleep e.param :: (set_cmd_from bus (i + 1) ret rest).2)

/-- set_cmd_rm69080: run the command list from its start, ret initialized to 0. -/
def set_cmd_rm69080 (bus : Nat → Int) (cmd_list : List cmd_dsi) : Int × List Event :=
  set_cmd_from bus 0 0 cmd_list

/-- The trace set_cmd_rm69080 produces on a list none of whose writes fail,
starting at entry index i: one event per entry, in order. -/
def traceFrom (bus : Nat → Int) : Nat → List cmd_dsi → List Event
  | _, [] => []
  | i, e :: rest =>
    (if e.cmd ≠ SLEEP_CMD then Event.write e.cmd e.param (bus i) else Event.sleep e.param)
      :: traceFrom bus (i + 1) rest

/-- The value of the local ret after processing a list none of whose writes
fail: the result of the last write, or the incoming accumulator if the list
performs no write. -/
def last_write_ret (bus : Nat → Int) : Nat → Int → List cmd_dsi → Int
  | _, ret, [] => ret
  | i, ret, e :: rest =>
    if e.cmd ≠ SLEEP_CMD then last_write_ret bus (i + 1) (bus i) rest
    else last_write_ret bus (i + 1) ret rest

/-- The driver state: struct rm69080 restricted to its mutable lifecycle flags
(the dsi and i2c handles are opaque collaborator references carried by Bus). -/
structure rm69080 where
  prepared : Bool
  enabled : Bool
  deriving DecidableEq, Repr

/-- The bus environment for one lifecycle call: the result of the generic write
performed at each command-list index, and the results of the four DCS helpers. -/
structure Bus where
  cmd_write : Nat → Int
  exit_sleep_mode : Int
  set_display_on : Int
  set_display_off : Int
  enter_sleep_mode : Int

/-- rm69080_disable: if not enabled, return 0; else clear enabled. No bus calls. -/
def rm69080_disable (ctx : rm69080) : Int × rm69080 × List Event :=
  if !ctx.enabled then (0, ctx, [])
  else (0, { ctx with enabled := false }, [])

/-- rm69080_enable: if enabled, return 0; else set enabled. No bus calls, and
no check of prepared. -/
def rm69080_enable (ctx : rm69080) : Int × rm69080 × List Event :=
  if ctx.enabled then (0, ctx, [])
  else (0, { ctx with enabled := true }, [])

/-- rm69080_unprepare: if not prepared, return 0; else issue set_display_off
then enter_sleep_mode (failures only logged), clear prepared, return 0. -/
def rm69080_unprepare (bus : Bus) (ctx : rm69080) : Int × rm69080 × List Event :=
  if !ctx.prepared then (0, ctx, [])
  else
    (0, { ctx with prepared := false },
     [Event.set_display_off bus.set_display_off,
      Event.enter_sleep_mode bus.enter_sleep_mode])

/-- rm69080_prepare: run set_cmd_rm69080 on the vendor table (its return value
is discarded by the C code), then exit_sleep_mode (abort on nonzero), sleep
40 ms, set_display_on (abort on nonzero), sleep 20 ms, set prepared. There is
no early return when already prepared. -/
def rm69080_prepare (bus : Bus) (ctx : rm69080) : Int × rm69080 × List Event :=
  let tr := (set_cmd_rm69080 bus.cmd_write rm69080_400x400_mod).2
  if bus.exit_sleep_mode ≠ 0 then
    (bus.exit_sleep_mode, ctx, tr ++ [Event.exit_sleep_mode bus.exit_sleep_mode])
  else if bus.set_display_on ≠ 0 then
    (bus.set_display_on, ctx,
     tr ++ [Event.exit_sleep_mode bus.exit_sleep_mode, Event.sleep 40,
            Event.set_display_on bus.set_display_on])
  else
    (0, { ctx with prepared := true },
     tr ++ [Event.exit_sleep_mode bus.exit_sleep_mode, Event.sleep 40,
            Event.set_display_on bus.set_display_on, Event.sleep 20])

/-- The display mode record, restricted to the fields the driver touches.
width_mm, height_mm and the type field are zero in the static table. -/
structure drm_display_mode where
  clock : Nat
  hdisplay : Nat
  hsync_start : Nat
  hsync_end : Nat
  htotal : Nat
  vdisplay : Nat
  vsync_start : Nat
  vsync_end : Nat
  vtotal : Nat
  width_mm : Nat
  height_mm : Nat
  mtype : Nat
  deriving DecidableEq, Repr

/-- DRM_MODE_TYPE_DRIVER = (1 << 6). -/
def DRM_MODE_TYPE_DRIVER : Nat := 64

/-- The static mode table rm69080_modes, with the arithmetic of the source. -/
def rm69080_modes : List drm_display_mode :=
  [{ clock := 11094,
     hdisplay := 400,
     hsync_start := 400 + 10,
     hsync_end := 400 + 10 + 10,
     htotal := 10 + 400 + 10 + 10,
     vdisplay := 400,
     vsync_start := 400 + 10,
     vsync_end := 400 + 10 + 10,
     vtotal := 10 + 400 + 10 + 10,
     width_mm := 0,
     height_mm := 0,
     mtype := 0 }]

/-- The mode &rm69080_modes[0] that rm69080_get_modes duplicates. -/
def rm69080_mode0 : drm_display_mode := rm69080_modes.get ⟨0, by decide⟩

/-- The connector state rm69080_get_modes touches: the probed mode list and the
display_info physical size. -/
structure drm_connector where
  probed_modes : List drm_display_mode
  width_mm : Nat
  height_mm : Nat
  deriving DecidableEq, Repr

/-- rm69080_get_modes: duplicate rm69080_modes[0] (dup_ok is the allocation
outcome of drm_mode_duplicate), set its type to DRM_MODE_TYPE_DRIVER, copy the
physical size to the connector, add the mode, return 1. When duplication fails
the C code only logs and then dereferences the null mode pointer
(drm_mode_set_name, mode->type): that undefined behaviour is modelled as none. -/
def rm69080_get_modes (dup_ok : Bool) (connector : drm_connector) :
    Option (Int × drm_connector) :=
  if dup_ok then
    let mode := { rm69080_mode0 with mtype := DRM_MODE_TYPE_DRIVER }
    some (1, { probed_modes := connector.probed_modes ++ [mode],
               width_mm := mode.width_mm,
               height_mm := mode.height_mm })
  else
    none

/-- A lifecycle operation together with the bus environment of its call. -/
inductive Op where
  | prepare (bus : Bus)
  | enable
  | disable
  | unprepare (bus : Bus)

/-- The state reached after one lifecycle operation. -/
def stepState (ctx : rm69080) : Op → rm69080
  | .prepare bus => (rm69080_prepare bus ctx).2.1
  | .enable => (rm69080_enable ctx).2.1
  | .disable => (rm69080_disable ctx).2.1
  | .unprepare bus => (rm69080_unprepare bus ctx).2.1

/-- All observable states along a call sequence, the initial state included. -/
def runStates (ctx : rm69080) : List Op → List rm69080
  | [] => [ctx]
  | op :: rest => ctx :: runStates (stepState ctx op) rest

/-- The caller discipline: enable only on a prepared panel, unprepare only on a
disabled panel. -/
def op_allowed (ctx : rm69080) : Op → Bool
  | .enable => ctx.prepared
  | .unprepare _ => !ctx.enabled
  | _ => true

/-- A call sequence obeys the caller discipline from a given state. -/
def disciplined (ctx : rm69080) : List Op → Bool
  | [] => true
  | op :: rest => op_allowed ctx op && disciplined (stepState ctx op) rest

/-- A bus on which every call succeeds. -/
def busZero : Bus :=
  { cmd_write := fun _ => 0, exit_sleep_mode := 0, set_display_on := 0,
    set_display_off := 0, enter_sleep_mode := 0 }

/-- A bus on which the write at command-list index 2 fails with -5 and
everything else succeeds. -/
def busFail3 : Bus :=
  { cmd_write := fun i => if i = 2 then -5 else 0, exit_sleep_mode := 0,
    set_display_on := 0, set_display_off := 0, enter_sleep_mode := 0 }

/-- A bus on which exit_sleep_mode fails with -7 and everything else succeeds. -/
def busExitFail : Bus :=
  { cmd_write := fun _ => 0, exit_sleep_mode := -7, set_display_on := 0,
    set_display_off := 0, enter_sleep_mode := 0 }

/-- A bus on which set_display_on fails with -9 and everything else succeeds. -/
def busOnFail : Bus :=
  { cmd_write := fun _ => 0, exit_sleep_mode := 0, set_display_on := -9,
    set_display_off := 0, enter_sleep_mode := 0 }

/-- When no write of the list fails, the sequencer walks the whole list and
its trace has one event per entry. -/
lemma set_cmd_from_all_ok (bus : Nat → Int) (hbus : ∀ j, 0 ≤ bus j) :
    ∀ (cmds : List cmd_dsi) (i : Nat) (r : Int),
      set_cmd_from bus i r cmds = (last_write_ret bus i r cmds, traceFrom bus i cmds) := by
  intro cmds
  induction cmds with
  | nil => intro i r; rfl
  | cons e rest ih =>
    intro i r
    by_cases he : e.cmd = SLEEP_CMD
    · simp [set_cmd_from, traceFrom, last_write_ret, he, ih (i + 1) r]
    · have hnn : ¬ bus i < 0 := not_lt.2 (hbus i)
      simp [set_cmd_from, traceFrom, last_write_ret, he, hnn, ih (i + 1) (bus i)]

/-- When the writes of the first segment succeed and the write of the next
entry fails, the sequencer performs exactly the events of the segment plus the
failing attempt, and returns the failing result. Stated from entry index i. -/
lemma set_cmd_from_abort (bus : Nat → Int) (e : cmd_dsi) (post : List cmd_dsi)
    (hw : e.cmd ≠ SLEEP_CMD) :
    ∀ (pre : List cmd_dsi) (i : Nat) (r : Int),
      bus (i + pre.length) < 0 →
      (∀ j (hj : j < pre.length), (pre.get ⟨j, hj⟩).cmd ≠ SLEEP_CMD → 0 ≤ bus (i + j)) →
      set_cmd_from bus i r (pre ++ e :: post) =
        (bus (i + pre.length),
         traceFrom bus i pre ++ [Event.write e.cmd e.param (bus (i + pre.length))]) := by
  intro pre
  induction pre with
  | nil =>
    intro i r hfail _
    simp only [List.length_nil, Nat.add_zero] at hfail
    simp [set_cmd_from, traceFrom, hw, hfail]
  | cons a pre ih =>
    intro i r hfail hok
    have hlen : i + (a :: pre).length = (i + 1) + pre.length := by
      simp [List.length_cons]; omega
    rw [hlen] at hfail
    have hok1 : ∀ j (hj : j < pre.length),
        (pre.get ⟨j, hj⟩).cmd ≠ SLEEP_CMD → 0 ≤ bus ((i + 1) + j) := by
      intro j hj hcmd
      have hj1 : j + 1 < (a :: pre).length := by simp [List.length_cons]; omega
      have harith : i + (j + 1) = (i + 1) + j := by omega
      have := hok (j + 1) hj1 hcmd
      rwa [harith] at this
    by_cases ha : a.cmd = SLEEP_CMD
    · have hrec := ih (i + 1) r hfail hok1
      simp [set_cmd_from, traceFrom, ha, hrec, hlen]
      congr 1
      omega
    · have h0 : 0 ≤ bus (i + 0) := hok 0 (by simp [List.length_cons]) ha
      have hnn : ¬ bus i < 0 := by simpa using not_lt.2 h0
      have hrec := ih (i + 1) (bus i) hfail hok1
      simp [set_cmd_from, traceFrom, ha, hnn, hrec, hlen]
      congr 1
      omega

/-- The sequencer never issues a DCS set_display_on command: its trace holds
only writes and sleeps. -/
lemma set_cmd_from_no_display_on (bus : Nat → Int) :
    ∀ (cmds : List cmd_dsi) (i : Nat) (r : Int),
      EvShape.set_display_on ∉ ((set_cmd_from bus i r cmds).2.map Event.shape) := by
  intro cmds
  induction cmds with
  | nil => intro i r; simp [set_cmd_from]
  | cons e rest ih =>
    intro i r
    by_cases he : e.cmd = SLEEP_CMD
    · simp only [set_cmd_from, he, ne_eq, not_true_eq_false, if_false, List.map_cons,
        List.mem_cons, Event.shape]
      rintro (h | h)
      · exact absurd h (by simp)
      · exact ih (i + 1) r (by simpa using h)
    · by_cases hb : bus i < 0
      · simp [set_cmd_from, he, hb, Event.shape]
      · simp only [set_cmd_from, he, ne_eq, not_false_eq_true, if_true, hb, if_false,
          List.map_cons, List.mem_cons, Event.shape]
        rintro (h | h)
        · exact absurd h (by simp)
        · exact ih (i + 1) (bus i) (by simpa using h)

/-- The shapes of the all-success trace do not depend on the bus results. -/
lemma traceFrom_shape (bus : Nat → Int) :
    ∀ (cmds : List cmd_dsi) (i : Nat),
      (traceFrom bus i cmds).map Event.shape =
        cmds.map (fun e =>
          if e.cmd ≠ SLEEP_CMD then EvShape.write e.cmd e.param else EvShape.sleep e.param) := by
  intro cmds
  induction cmds with
  | nil => intro i; rfl
  | cons e rest ih =>
    intro i
    by_cases he : e.cmd = SLEEP_CMD <;>
      simp [traceFrom, Event.shape, he, ih (i + 1)]

/-- The all-success trace has one event per entry of the list. -/
lemma traceFrom_length (bus : Nat → Int) :
    ∀ (cmds : List cmd_dsi) (i : Nat), (traceFrom bus i cmds).length = cmds.length := by
  intro cmds
  induction cmds with
  | nil => intro i; rfl
  | cons e rest ih => intro i; simp [traceFrom, ih (i + 1)]

/-- The state after rm69080_prepare: unchanged on a DCS failure, prepared set
on success. -/
lemma prepare_state (bus : Bus) (ctx : rm69080) :
    (rm69080_prepare bus ctx).2.1 = ctx ∨
    (rm69080_prepare bus ctx).2.1 = { ctx with prepared := true } := by
  simp only [rm69080_prepare]
  by_cases h1 : bus.exit_sleep_mode ≠ 0
  · left; simp [h1]
  · by_cases h2 : bus.set_display_on ≠ 0
    · left; simp [h1, h2]
    · right; simp [h1, h2]

/-- rm69080_prepare never touches the enabled flag. -/
lemma prepare_enabled (bus : Bus) (ctx : rm69080) :
    (rm69080_prepare bus ctx).2.1.enabled = ctx.enabled := by
  rcases prepare_state bus ctx with h | h <;> rw [h]

/-- The state after rm69080_enable: enabled set, prepared untouched. -/
lemma enable_state (ctx : rm69080) :
    (rm69080_enable ctx).2.1 = { ctx with enabled := true } := by
  cases ctx with
  | mk p e => cases e <;> simp [rm69080_enable]

/-- The state after rm69080_disable: enabled cleared, prepared untouched. -/
lemma disable_state (ctx : rm69080) :
    (rm69080_disable ctx).2.1 = { ctx with enabled := false } := by
  cases ctx with
  | mk p e => cases e <;> simp [rm69080_disable]

/-- The state after rm69080_unprepare: prepared cleared, enabled untouched. -/
lemma unprepare_state (bus : Bus) (ctx : rm69080) :
    (rm69080_unprepare bus ctx).2.1 = { ctx with prepared := false } := by
  cases ctx with
  | mk p e => cases p <;> simp [rm69080_unprepare]

/-- One disciplined step preserves the invariant enabled implies prepared. -/
lemma inv_step (ctx : rm69080) (op : Op)
    (h0 : ctx.enabled = true → ctx.prepared = true)
    (hall : op_allowed ctx op = true) :
    (stepState ctx op).enabled = true → (stepState ctx op).prepared = true := by
  cases op with
  | prepare bus =>
    intro he
    rcases prepare_state bus ctx with h | h
    · rw [stepState, h] at he ⊢; exact h0 he
    · rw [stepState, h]
  | enable =>
    intro _
    rw [stepState, enable_state]
    simpa [op_allowed] using hall
  | disable =>
    intro he
    rw [stepState, disable_state] at he
    simp at he
  | unprepare bus =>
    intro he
    rw [stepState, unprepare_state] at he
    simp [op_allowed] at hall
    simp at he
    rw [he] at hall
    simp at hall

/-- C2: for every command list split as pre ++ e :: post (so the failing write
sits at index k = pre.length), if every write among the first k entries
succeeds, entry k is a write entry and its bus write fails (negative result),
then set_cmd_rm69080 performs exactly one event per entry of the first k
entries (a two-byte write for a non-sentinel entry, a sleep of param
milliseconds for a sentinel entry) followed by the failing attempt, performs
nothing after index k, and returns the failing result to its caller. -/
theorem C2_sequencer_abort (bus : Nat → Int) (pre : List cmd_dsi) (e : cmd_dsi)
    (post : List cmd_dsi) (hw : e.cmd ≠ SLEEP_CMD)
    (hfail : bus pre.length < 0)
    (hok : ∀ j (hj : j < pre.length), (pre.get ⟨j, hj⟩).cmd ≠ SLEEP_CMD → 0 ≤ bus j) :
    set_cmd_rm69080 bus (pre ++ e :: post) =
      (bus pre.length,
       traceFrom bus 0 pre ++ [Event.write e.cmd e.param (bus pre.length)]) := by
  have h := set_cmd_from_abort bus e post hw pre 0 0
    (by simpa using hfail) (by simpa using hok)
  simpa [set_cmd_rm69080] using h

/-- Witness for C2 at the vendor table with the write of entry index 2
failing with -5: the first two writes are performed, then the failing attempt,
and -5 is returned. -/
theorem C2_witness :
    set_cmd_rm69080 busFail3.cmd_write rm69080_400x400_mod =
      (-5, [Event.write 0xFE 0x05 0, Event.write 0x05 0x00 0,
            Event.write 0xFE 0x07 (-5)]) := by
  have h := C2_sequencer_abort busFail3.cmd_write
      [⟨0xFE, 0x05⟩, ⟨0x05, 0x00⟩] ⟨0xFE, 0x07⟩
      [⟨0x07, 0x4F⟩, ⟨0xFE, 0x0A⟩, ⟨0x1C, 0x1B⟩, ⟨0xFE, 0x00⟩, ⟨0x35, 0x00⟩,
       ⟨0x51, 0xF0⟩, ⟨0x38, 0x00⟩, ⟨0x11, 0x00⟩, ⟨SLEEP_CMD, 0x96⟩,
       ⟨SLEEP_CMD, 0x96⟩, ⟨0x29, 0x00⟩]
      (by decide) (by decide) (by decide)
  exact h.trans (by decide)

/-- C3 (code behaviour at the failing input of the claim): with the 3rd
command-list write failing (result -5) and every later bus call succeeding,
the sequencer does abort at that entry with -5 and applies nothing further,
but rm69080_prepare discards that result, proceeds with exit_sleep_mode and
set_display_on, returns 0 and sets prepared, so the failure is not surfaced
and prepared does not remain false. -/
theorem C3_code_behavior :
    set_cmd_rm69080 busFail3.cmd_write rm69080_400x400_mod =
      (-5, [Event.write 0xFE 0x05 0, Event.write 0x05 0x00 0,
            Event.write 0xFE 0x07 (-5)]) ∧
    rm69080_prepare busFail3 ⟨false, false⟩ =
      (0, ⟨true, false⟩,
       [Event.write 0xFE 0x05 0, Event.write 0x05 0x00 0, Event.write 0xFE 0x07 (-5),
        Event.exit_sleep_mode 0, Event.sleep 40, Event.set_display_on 0,
        Event.sleep 20]) := by
  constructor <;> decide

/-- C4 (counterexample): prepare on an already-prepared panel is not a no-op;
even with an all-success bus the second prepare performs bus writes and
sleeps, so its trace is nonempty. -/
theorem C4_counterexample :
    (rm69080_prepare busZero ⟨true, false⟩).2.2 ≠ [] := by decide

/-- C4 (amended): calling prepare on an already-prepared panel returns success
and leaves the state unchanged when every bus call succeeds, but it is not a
no-op: it re-runs all 14 entries of the vendor command list and the
exit-sleep/display-on steps, because rm69080_prepare never checks prepared. -/
theorem C4_prepare_reruns (bus : Bus) (en : Bool)
    (h1 : ∀ i, 0 ≤ bus.cmd_write i)
    (h2 : bus.exit_sleep_mode = 0)
    (h3 : bus.set_display_on = 0) :
    rm69080_prepare bus ⟨true, en⟩ =
      (0, ⟨true, en⟩,
       traceFrom bus.cmd_write 0 rm69080_400x400_mod ++
         [Event.exit_sleep_mode 0, Event.sleep 40, Event.set_display_on 0,
          Event.sleep 20]) ∧
    (traceFrom bus.cmd_write 0 rm69080_400x400_mod).length = 14 := by
  constructor
  · have hall := set_cmd_from_all_ok bus.cmd_write h1 rm69080_400x400_mod 0 0
    simp [rm69080_prepare, set_cmd_rm69080, h2, h3, hall]
  · rw [traceFrom_length]
    decide

/-- Witness for C4 at the all-success bus busZero. -/
theorem C4_witness :
    rm69080_prepare busZero ⟨true, false⟩ =
      (0, ⟨true, false⟩,
       traceFrom busZero.cmd_write 0 rm69080_400x400_mod ++
         [Event.exit_sleep_mode 0, Event.sleep 40, Event.set_display_on 0,
          Event.sleep 20]) ∧
    (traceFrom busZero.cmd_write 0 rm69080_400x400_mod).length = 14 :=
  C4_prepare_reruns busZero false (fun _ => le_refl 0) rfl rfl

/-- C5: on a fresh unprepared panel with every bus call succeeding,
rm69080_prepare applies all 14 entries of the vendor table in table order
(12 two-byte writes and 2 sleeps of 150 ms), then issues exit_sleep_mode,
sleeps 40 ms, issues set_display_on, sleeps 20 ms, returns 0, and the final
state has prepared = true. -/
theorem C5_prepare_happy_path (bus : Bus)
    (h1 : ∀ i, 0 ≤ bus.cmd_write i)
    (h2 : bus.exit_sleep_mode = 0)
    (h3 : bus.set_display_on = 0) :
    rm69080_prepare bus ⟨false, false⟩ =
      (0, ⟨true, false⟩,
       traceFrom bus.cmd_write 0 rm69080_400x400_mod ++
         [Event.exit_sleep_mode 0, Event.sleep 40, Event.set_display_on 0,
          Event.sleep 20]) ∧
    (traceFrom bus.cmd_write 0 rm69080_400x400_mod).map Event.shape =
      [EvShape.write 0xFE 0x05, EvShape.write 0x05 0x00, EvShape.write 0xFE 0x07,
       EvShape.write 0x07 0x4F, EvShape.write 0xFE 0x0A, EvShape.write 0x1C 0x1B,
       EvShape.write 0xFE 0x00, EvShape.write 0x35 0x00, EvShape.write 0x51 0xF0,
       EvShape.write 0x38 0x00, EvShape.write 0x11 0x00, EvShape.sleep 150,
       EvShape.sleep 150, EvShape.write 0x29 0x00] := by
  constructor
  · have hall := set_cmd_from_all_ok bus.cmd_write h1 rm69080_400x400_mod 0 0
    simp [rm69080_prepare, set_cmd_rm69080, h2, h3, hall]
  · rw [traceFrom_shape]
    decide

/-- Witness for C5 at the all-success bus busZero. -/
theorem C5_witness :
    rm69080_prepare busZero ⟨false, false⟩ =
      (0, ⟨true, false⟩,
       traceFrom busZero.cmd_write 0 rm69080_400x400_mod ++
         [Event.exit_sleep_mode 0, Event.sleep 40, Event.set_display_on 0,
          Event.sleep 20]) ∧
    (traceFrom busZero.cmd_write 0 rm69080_400x400_mod).map Event.shape =
      [EvShape.write 0xFE 0x05, EvShape.write 0x05 0x00, EvShape.write 0xFE 0x07,
       EvShape.write 0x07 0x4F, EvShape.write 0xFE 0x0A, EvShape.write 0x1C 0x1B,
       EvShape.write 0xFE 0x00, EvShape.write 0x35 0x00, EvShape.write 0x51 0xF0,
       EvShape.write 0x38 0x00, EvShape.write 0x11 0x00, EvShape.sleep 150,
       EvShape.sleep 150, EvShape.write 0x29 0x00] :=
  C5_prepare_happy_path busZero (fun _ => le_refl 0) rfl rfl

/-- C6: if exit_sleep_mode fails during prepare (nonzero result), prepare
aborts before issuing set_display_on, returns the error, and leaves the state
(hence prepared) unchanged; if set_display_on fails after exit_sleep_mode
succeeded, prepare returns that error and does not set prepared. -/
theorem C6_prepare_failure_aborts (bus : Bus) (ctx : rm69080) :
    (bus.exit_sleep_mode ≠ 0 →
      rm69080_prepare bus ctx =
        (bus.exit_sleep_mode, ctx,
         (set_cmd_rm69080 bus.cmd_write rm69080_400x400_mod).2 ++
           [Event.exit_sleep_mode bus.exit_sleep_mode]) ∧
      EvShape.set_display_on ∉ ((rm69080_prepare bus ctx).2.2.map Event.shape)) ∧
    (bus.exit_sleep_mode = 0 → bus.set_display_on ≠ 0 →
      rm69080_prepare bus ctx =
        (bus.set_display_on, ctx,
         (set_cmd_rm69080 bus.cmd_write rm69080_400x400_mod).2 ++
           [Event.exit_sleep_mode 0, Event.sleep 40,
            Event.set_display_on bus.set_display_on])) := by
  constructor
  · intro h
    have heq : rm69080_prepare bus ctx =
        (bus.exit_sleep_mode, ctx,
         (set_cmd_rm69080 bus.cmd_write rm69080_400x400_mod).2 ++
           [Event.exit_sleep_mode bus.exit_sleep_mode]) := by
      simp [rm69080_prepare, h]
    refine ⟨heq, ?_⟩
    rw [heq]
    simp only [List.map_append, List.mem_append, List.map_cons, List.map_nil,
      List.mem_singleton, Event.shape]
    rintro (hm | hm)
    · exact set_cmd_from_no_display_on bus.cmd_write rm69080_400x400_mod 0 0 hm
    · simp at hm
  · intro h1 h2
    simp [rm69080_prepare, h1, h2]

/-- Witness for C6: exit_sleep_mode failing with -7, and set_display_on
failing with -9 after a successful exit_sleep_mode. -/
theorem C6_witness :
    rm69080_prepare busExitFail ⟨false, false⟩ =
      (busExitFail.exit_sleep_mode, ⟨false, false⟩,
       (set_cmd_rm69080 busExitFail.cmd_write rm69080_400x400_mod).2 ++
         [Event.exit_sleep_mode busExitFail.exit_sleep_mode]) ∧
    rm69080_prepare busOnFail ⟨false, false⟩ =
      (busOnFail.set_display_on, ⟨false, false⟩,
       (set_cmd_rm69080 busOnFail.cmd_write rm69080_400x400_mod).2 ++
         [Event.exit_sleep_mode 0, Event.sleep 40,
          Event.set_display_on busOnFail.set_display_on]) :=
  ⟨((C6_prepare_failure_aborts busExitFail ⟨false, false⟩).1 (by decide)).1,
   (C6_prepare_failure_aborts busOnFail ⟨false, false⟩).2 (by decide) (by decide)⟩

/-- C7: rm69080_unprepare never fails. On a prepared panel it issues
set_display_off then enter_sleep_mode regardless of their results (the bus
results are unconstrained here), always clears prepared, keeps enabled, and
returns 0; on an unprepared panel it is a no-op success. -/
theorem C7_unprepare_best_effort (bus : Bus) (ctx : rm69080) :
    rm69080_unprepare bus ctx =
      (0,
       if ctx.prepared then { ctx with prepared := false } else ctx,
       if ctx.prepared then
         [Event.set_display_off bus.set_display_off,
          Event.enter_sleep_mode bus.enter_sleep_mode]
       else []) ∧
    (rm69080_unprepare bus ctx).2.1.prepared = false ∧
    (rm69080_unprepare bus ctx).2.1.enabled = ctx.enabled := by
  cases ctx with
  | mk p e => cases p <;> simp [rm69080_unprepare]

/-- C8 (code behaviour at the failing input of the claim): when
drm_mode_duplicate fails, rm69080_get_modes does not return an error count; it
logs and then dereferences the null mode pointer, modelled as none. On a
successful duplication it adds the single mode and returns 1. -/
theorem C8_code_behavior :
    rm69080_get_modes false ⟨[], 0, 0⟩ = none ∧
    rm69080_get_modes true ⟨[], 0, 0⟩ =
      some (1, ⟨[{ rm69080_mode0 with mtype := DRM_MODE_TYPE_DRIVER }], 0, 0⟩) := by
  constructor <;> rfl

/-- C9: with a successful duplication, rm69080_get_modes registers exactly one
mode with the connector and returns 1; the static table holds exactly one
mode, with active area 400 by 400, htotal = 400 + 10 + 10 + 10 = 430 and
vtotal = 430 (active plus the three 10-pixel blanking segments). -/
theorem C9_single_mode (c : drm_connector) :
    rm69080_get_modes true c =
      some (1, { probed_modes := c.probed_modes ++
                   [{ rm69080_mode0 with mtype := DRM_MODE_TYPE_DRIVER }],
                 width_mm := 0, height_mm := 0 }) ∧
    rm69080_modes.length = 1 ∧
    rm69080_mode0.hdisplay = 400 ∧
    rm69080_mode0.vdisplay = 400 ∧
    rm69080_mode0.htotal = 400 + 10 + 10 + 10 ∧
    rm69080_mode0.htotal = 430 ∧
    rm69080_mode0.vtotal = 430 := by
  exact ⟨rfl, by decide, by decide, by decide, by decide, by decide, by decide⟩

/-- C1 (counterexample): with an all-success bus, the sequence prepare,
enable, unprepare from a fresh panel obeys the claim precondition (enable is
invoked right after a successful prepare, with prepared = true), yet the final
observable state is enabled = true with prepared = false: rm69080_unprepare
clears prepared without clearing enabled, so enabled implies prepared fails. -/
theorem C1_counterexample :
    (rm69080_prepare busZero ⟨false, false⟩).1 = 0 ∧
    runStates ⟨false, false⟩ [Op.prepare busZero, Op.enable, Op.unprepare busZero] =
      [⟨false, false⟩, ⟨true, false⟩, ⟨true, true⟩, ⟨false, true⟩] ∧
    (⟨false, true⟩ : rm69080).enabled = true ∧
    (⟨false, true⟩ : rm69080).prepared = false := by
  refine ⟨by decide, by decide, rfl, rfl⟩

/-- C1 (amended): the invariant enabled implies prepared holds at every
observable state of a call sequence provided the caller discipline also
forbids unprepare while enabled: if the initial state satisfies the invariant
and every enable is invoked only while prepared and every unprepare only while
not enabled, then every state along the run satisfies enabled implies
prepared. The original claim fails because unprepare leaves enabled set. -/
theorem C1_invariant (ops : List Op) (ctx : rm69080)
    (h0 : ctx.enabled = true → ctx.prepared = true)
    (hd : disciplined ctx ops = true) :
    ∀ s ∈ runStates ctx ops, s.enabled = true → s.prepared = true := by
  induction ops generalizing ctx with
  | nil =>
    intro s hs
    simp [runStates] at hs
    rw [hs]
    exact h0
  | cons op rest ih =>
    intro s hs
    simp only [disciplined, Bool.and_eq_true] at hd
    simp only [runStates, List.mem_cons] at hs
    rcases hs with h | h
    · rw [h]; exact h0
    · exact ih (stepState ctx op) (inv_step ctx op h0 hd.1) hd.2 s h

/-- A disciplined demonstration sequence: prepare, enable, disable, unprepare
on an all-success bus. -/
def opsDemo : List Op :=
  [Op.prepare busZero, Op.enable, Op.disable, Op.unprepare busZero]

/-- Witness for C1 on the disciplined sequence opsDemo from a fresh panel: the
state reached after enable is observable in the run and satisfies the
invariant. -/
theorem C1_witness : (⟨true, true⟩ : rm69080).prepared = true :=
  C1_invariant opsDemo ⟨false, false⟩ (by decide) (by decide)
    ⟨true, true⟩ (by decide) (by decide)

/-- C10: each operation touches only its designated flag. rm69080_enable and
rm69080_disable only set or clear enabled, perform no bus calls and no sleeps
(empty trace), and return 0 — enable succeeds even when prepared is false,
since the code never checks prepared; rm69080_prepare and rm69080_unprepare
leave enabled unchanged. -/
theorem C10_frame_effects (bus : Bus) (ctx : rm69080) :
    rm69080_enable ctx = (0, { ctx with enabled := true }, []) ∧
    rm69080_disable ctx = (0, { ctx with enabled := false }, []) ∧
    (rm69080_prepare bus ctx).2.1.enabled = ctx.enabled ∧
    (rm69080_unprepare bus ctx).2.1.enabled = ctx.enabled := by
  cases ctx with
  | mk p e =>
    refine ⟨?_, ?_, prepare_enabled bus ⟨p, e⟩, ?_⟩
    · cases e <;> simp [rm69080_enable]
    · cases e <;> simp [rm69080_disable]
    · cases p <;> simp [rm69080_unprepare]
